import Mathlib

/-!
Verification of the vnats broker-bridge core (`vnats/bridge.go`).

The Go code drives a JetStream context through a small set of calls:
`ConsumerInfo`, `AddConsumer`, `StreamInfo`, `AddStream`, `PullSubscribe`.
We embed the bridge functions shallowly: the external JetStream server is a
state (`JetStreamState`) holding the durable consumers and streams it stores,
plus injectable fault fields standing for transport/server errors, and call
counters recording how often the creation and subscribe primitives were
invoked.  Go errors are modelled by their message strings, which is exactly
the granularity the code itself inspects (`strings.Contains` on `err.Error()`
and sentinel comparison against `nats.ErrStreamNotFound`).
-/

deriving instance DecidableEq for Except

/-- Go `error` values, modelled by their message string. -/
abbrev GoError := String

/-- `type SubscriptionMode int` (bridge.go:87). Go's named integer type. -/
abbrev SubscriptionMode := Int

/-- `MultipleInstances SubscriptionMode = iota` (bridge.go:92), value 0. -/
def MultipleInstances : SubscriptionMode := 0

/-- `SingleInstanceMessagesInOrder` (bridge.go:97), value 1. -/
def SingleInstanceMessagesInOrder : SubscriptionMode := 1

/-- `nats.AckPolicy` enum of the nats.go client (AckNone, AckAll, AckExplicit).
Named `AckPolicyValue` because the `ConsumerConfig` field below keeps the Go
field name `AckPolicy`. -/
inductive AckPolicyValue where
  | ackNone
  | ackAll
  | ackExplicit
deriving DecidableEq, Repr

/-- Go `time.Duration` counts nanoseconds; `time.Second` is 10^9. -/
def nanosecondsPerSecond : Int := 1000000000

/-- The fields of `nats.ConsumerConfig` this code reads or writes
(`Durable`, `AckPolicy`, `AckWait`, `MaxAckPending`), plus two representative
further fields standing for the rest of the struct (zero-valued by the
composite literal in `CreateSubscription`). -/
structure ConsumerConfig where
  Durable : String
  DeliverSubject : String
  FilterSubject : String
  AckPolicy : AckPolicyValue
  AckWait : Int
  MaxAckPending : Int
deriving DecidableEq, Repr

/-- The fields of `nats.ConsumerInfo` the bridge uses: the consumer name and
its stored configuration. -/
structure ConsumerInfo where
  Name : String
  Config : ConsumerConfig
deriving DecidableEq, Repr

/-- The fields of `nats.StreamConfig` relevant here. -/
structure StreamConfig where
  Name : String
  Subjects : List String := []
deriving DecidableEq, Repr

/-- The part of `nats.StreamInfo` the bridge returns. -/
structure StreamInfo where
  Config : StreamConfig
deriving DecidableEq, Repr

/-- The pull handle produced by `PullSubscribe(subject, consumerName,
nats.Bind(streamName, consumerName))`, wrapped as `natsSubscription`
(bridge.go:116-121): it records the subject and the bound
(stream, consumer) pair. -/
structure natsSubscription where
  subject : String
  consumerName : String
  boundStream : String
deriving DecidableEq, Repr

/-- State of the external JetStream server as seen through the
`jetStreamContext` calls, with fault-injection fields for transport/server
errors and counters for the mutating calls. -/
structure JetStreamState where
  consumers : List ((String × String) × ConsumerConfig) := []
  consumerInfoFault : Option GoError := none
  addConsumerFault : Option GoError := none
  addConsumerCalls : Nat := 0
  streams : List StreamConfig := []
  streamInfoFault : Option GoError := none
  addStreamFault : Option GoError := none
  addStreamCalls : Nat := 0
  pullSubscribeFault : Option GoError := none
  pullSubscribeCalls : Nat := 0
deriving DecidableEq, Repr

/-- Helper for `strings.Contains`: does `pat` occur as a contiguous
sub-list of the second argument? -/
def containsAux (pat : List Char) : List Char → Bool
  | [] => pat.isPrefixOf []
  | c :: cs => pat.isPrefixOf (c :: cs) || containsAux pat cs

/-- Go `strings.Contains(s, substr)` (used at bridge.go:138). -/
def goContains (s substr : String) : Bool := containsAux substr.data s.data

/-- Go `strings.Split` on a single-character separator, on char lists:
always returns at least one (possibly empty) token. -/
def splitChar (sep : Char) : List Char → List (List Char)
  | [] => [[]]
  | c :: cs =>
    if c = sep then [] :: splitChar sep cs
    else
      match splitChar sep cs with
      | [] => [[c]]
      | t :: ts => (c :: t) :: ts

/-- Go `strings.Split(s, sep)` for a one-character separator. -/
def goSplit (s : String) (sep : Char) : List String :=
  (splitChar sep s.data).map String.mk

/-- `streamName := strings.Split(subject, ".")[0]` (bridge.go:103).
`strings.Split` never returns an empty slice, so the index-0 access is
total; `headD` with an arbitrary default embeds it. -/
def streamNameOf (subject : String) : String :=
  (goSplit subject '.').headD ""

/-- Message of `nats.ErrConsumerNotFound`, which the consumer lookup path
recognises by substring (bridge.go:138). -/
def errConsumerNotFound : GoError := "nats: consumer not found"

/-- The configuration stored for `(streamName, durableName)`, if any. -/
def lookupConsumer (st : JetStreamState) (streamName durableName : String) :
    Option ConsumerConfig :=
  (st.consumers.find? (fun entry => entry.1 = (streamName, durableName))).map
    (fun entry => entry.2)

/-- `jetStreamContext.ConsumerInfo(streamName, durable)`: an injected fault
takes precedence; otherwise a stored consumer is returned, and absence
surfaces as `nats.ErrConsumerNotFound`. -/
def jsConsumerInfo (st : JetStreamState) (streamName durableName : String) :
    Except GoError ConsumerInfo :=
  match st.consumerInfoFault with
  | some e => Except.error e
  | none =>
    match lookupConsumer st streamName durableName with
    | some cfg => Except.ok { Name := durableName, Config := cfg }
    | none => Except.error errConsumerNotFound

/-- `jetStreamContext.AddConsumer(streamName, cfg)`: counts the call, then
either fails with the injected fault or stores the consumer. -/
def jsAddConsumer (st : JetStreamState) (streamName : String)
    (cfg : ConsumerConfig) : Except GoError ConsumerInfo × JetStreamState :=
  let st1 := { st with addConsumerCalls := st.addConsumerCalls + 1 }
  match st1.addConsumerFault with
  | some e => (Except.error e, st1)
  | none =>
    (Except.ok { Name := cfg.Durable, Config := cfg },
     { st1 with consumers := ((streamName, cfg.Durable), cfg) :: st1.consumers })

/-- `jetStreamContext.StreamInfo(name)` outcome, mirroring the identity
comparison against `nats.ErrStreamNotFound` in the caller. -/
inductive StreamLookupResult where
  | found (info : StreamInfo)
  | notFound
  | failed (e : GoError)
deriving DecidableEq, Repr

/-- `jetStreamContext.StreamInfo(name)`: injected fault, stored stream, or
the `ErrStreamNotFound` sentinel. -/
def jsStreamInfo (st : JetStreamState) (name : String) : StreamLookupResult :=
  match st.streamInfoFault with
  | some e => StreamLookupResult.failed e
  | none =>
    match st.streams.find? (fun cfg => cfg.Name = name) with
    | some cfg => StreamLookupResult.found { Config := cfg }
    | none => StreamLookupResult.notFound

/-- `jetStreamContext.AddStream(cfg)`: counts the call, then fails with the
injected fault or stores the stream. -/
def jsAddStream (st : JetStreamState) (cfg : StreamConfig) :
    Except GoError StreamInfo × JetStreamState :=
  let st1 := { st with addStreamCalls := st.addStreamCalls + 1 }
  match st1.addStreamFault with
  | some e => (Except.error e, st1)
  | none => (Except.ok { Config := cfg }, { st1 with streams := cfg :: st1.streams })

/-- `jetStreamContext.PullSubscribe(subject, consumerName, nats.Bind(streamName,
consumerName))`: counts the call, then fails with the injected fault or
returns the bound handle. -/
def jsPullSubscribe (st : JetStreamState) (subject consumerName streamName : String) :
    Except GoError natsSubscription × JetStreamState :=
  let st1 := { st with pullSubscribeCalls := st.pullSubscribeCalls + 1 }
  match st1.pullSubscribeFault with
  | some e => (Except.error e, st1)
  | none =>
    (Except.ok { subject := subject, consumerName := consumerName,
                 boundStream := streamName }, st1)

/-- `patchConsumerConfig` (bridge.go:124-133): the subscription-mode policy.
`switch mode` with cases `MultipleInstances`, `SingleInstanceMessagesInOrder`
and a default, written as the equivalent if-chain. -/
def patchConsumerConfig (config : ConsumerConfig) (mode : SubscriptionMode) :
    ConsumerConfig :=
  if mode = MultipleInstances then { config with MaxAckPending := 0 }
  else if mode = SingleInstanceMessagesInOrder then { config with MaxAckPending := 1 }
  else { config with MaxAckPending := 0 }

/-- The drift error of bridge.go:152-153:
`fmt.Errorf("consumer %s SubscriptionMode has changed. Please use the
existing SubscriptionMode=%v or delete consumer", consumerConfig.Durable,
SubscriptionMode(ci.Config.MaxAckPending))`.  `SubscriptionMode` has no
`String` method, so `%v` prints the underlying integer in decimal. -/
def configurationDriftMessage (durableName : String) (storedMaxAckPending : Int) :
    GoError :=
  "consumer " ++ durableName ++
    " SubscriptionMode has changed. Please use the existing SubscriptionMode=" ++
    toString storedMaxAckPending ++ " or delete consumer"

/-- `getOrAddConsumer` (bridge.go:135-157). -/
def getOrAddConsumer (st : JetStreamState) (streamName : String)
    (consumerConfig : ConsumerConfig) :
    Except GoError ConsumerInfo × JetStreamState :=
  match jsConsumerInfo st streamName consumerConfig.Durable with
  | Except.error err =>
    if !goContains err "consumer not found" then (Except.error err, st)
    else
      match jsAddConsumer st streamName consumerConfig with
      | (Except.error e, st1) =>
        (Except.error ("consumer " ++ consumerConfig.Durable ++
          " could not be added to stream " ++ streamName ++ ": " ++ e), st1)
      | (Except.ok ci, st1) => (Except.ok ci, st1)
  | Except.ok ci =>
    if ci.Config.MaxAckPending ≠ consumerConfig.MaxAckPending then
      (Except.error (configurationDriftMessage consumerConfig.Durable
        ci.Config.MaxAckPending), st)
    else
      (Except.ok ci, st)

/-- `GetOrAddStream` (bridge.go:66-82). -/
def GetOrAddStream (st : JetStreamState) (streamConfig : StreamConfig) :
    Except GoError StreamInfo × JetStreamState :=
  match jsStreamInfo st streamConfig.Name with
  | StreamLookupResult.failed e =>
    (Except.error ("NATS streamInfo-info could not be fetched: " ++ e), st)
  | StreamLookupResult.notFound =>
    match jsAddStream st streamConfig with
    | (Except.error e, st1) =>
      (Except.error ("streamInfo " ++ streamConfig.Name ++
        " could not be created: " ++ e), st1)
    | (Except.ok info, st1) => (Except.ok info, st1)
  | StreamLookupResult.found info => (Except.ok info, st)

/-- The consumer configuration literal of `CreateSubscription`
(bridge.go:104-108): durable name, explicit ack, 30s ack wait, all other
fields zero-valued. -/
def subscriptionBaseConfig (consumerName : String) : ConsumerConfig :=
  { Durable := consumerName
    DeliverSubject := ""
    FilterSubject := ""
    AckPolicy := AckPolicyValue.ackExplicit
    AckWait := 30 * nanosecondsPerSecond
    MaxAckPending := 0 }

/-- The configuration `CreateSubscription` hands to `getOrAddConsumer`:
the base literal after `patchConsumerConfig(config, mode)` (bridge.go:110). -/
def subscriptionConsumerConfig (consumerName : String) (mode : SubscriptionMode) :
    ConsumerConfig :=
  patchConsumerConfig (subscriptionBaseConfig consumerName) mode

/-- `CreateSubscription` (bridge.go:102-122). -/
def CreateSubscription (st : JetStreamState) (subject consumerName : String)
    (mode : SubscriptionMode) : Except GoError natsSubscription × JetStreamState :=
  let streamName := streamNameOf subject
  let config := subscriptionConsumerConfig consumerName mode
  match getOrAddConsumer st streamName config with
  | (Except.error e, st1) => (Except.error e, st1)
  | (Except.ok _, st1) =>
    match jsPullSubscribe st1 subject consumerName streamName with
    | (Except.error e, st2) => (Except.error e, st2)
    | (Except.ok sub, st2) => (Except.ok sub, st2)

/-- Modelled from the spec (§6): "the stream a subject belongs to is the
text before the first `.` delimiter in the subject string".  Spec-side
definition, to be compared with `streamNameOf` from the source. -/
def specFirstSegment (subject : String) : String :=
  String.mk (subject.data.takeWhile (fun c => c != '.'))

/-! ## Helper lemmas -/

theorem patchConsumerConfig_eq (c : ConsumerConfig) (m : SubscriptionMode) :
    patchConsumerConfig c m =
      { c with MaxAckPending := if m = SingleInstanceMessagesInOrder then 1 else 0 } := by
  unfold patchConsumerConfig
  by_cases h0 : m = MultipleInstances
  · subst h0
    simp [MultipleInstances, SingleInstanceMessagesInOrder]
  · by_cases h1 : m = SingleInstanceMessagesInOrder
    · subst h1
      simp [MultipleInstances, SingleInstanceMessagesInOrder]
    · simp [h0, h1]

theorem patch_Durable (c : ConsumerConfig) (m : SubscriptionMode) :
    (patchConsumerConfig c m).Durable = c.Durable := by
  rw [patchConsumerConfig_eq]

theorem patch_MaxAckPending (c : ConsumerConfig) (m : SubscriptionMode) :
    (patchConsumerConfig c m).MaxAckPending =
      if m = SingleInstanceMessagesInOrder then 1 else 0 := by
  rw [patchConsumerConfig_eq]

theorem containsAux_of_isPrefixOf {pat l : List Char} (h : pat.isPrefixOf l = true) :
    containsAux pat l = true := by
  cases l with
  | nil => simpa [containsAux] using h
  | cons c cs => simp [containsAux, h]

theorem containsAux_append (pre pat suf : List Char) :
    containsAux pat (pre ++ (pat ++ suf)) = true := by
  induction pre with
  | nil =>
    simp only [List.nil_append]
    apply containsAux_of_isPrefixOf
    rw [ List.isPrefixOf_iff_prefix]
    exact List.prefix_append pat suf
  | cons c cs ih => simp [containsAux, ih]

theorem goContains_decomp (s pre pat suf : String)
    (h : s.data = pre.data ++ (pat.data ++ suf.data)) : goContains s pat = true := by
  unfold goContains
  rw [h]
  exact containsAux_append _ _ _

theorem splitChar_ne_nil (sep : Char) (l : List Char) : splitChar sep l ≠ [] := by
  cases l with
  | nil => simp [splitChar]
  | cons c cs =>
    simp only [splitChar]
    by_cases h : c = sep
    · simp [h]
    · simp only [h, if_false]
      cases splitChar sep cs <;> simp

theorem splitChar_head (sep : Char) (l : List Char) :
    (splitChar sep l).headD [] = l.takeWhile (fun c => c != sep) := by
  induction l with
  | nil => rfl
  | cons c cs ih =>
    simp only [splitChar]
    by_cases h : c = sep
    · simp [h]
    · have hb : (c != sep) = true := by simp [h]
      simp only [h, if_false]
      cases hs : splitChar sep cs with
      | nil => exact absurd hs (splitChar_ne_nil sep cs)
      | cons t ts =>
        rw [hs] at ih
        simp only [List.headD_cons] at ih
        simp [List.takeWhile_cons, hb, ih]

theorem streamNameOf_eq_spec (subject : String) :
    streamNameOf subject = specFirstSegment subject := by
  unfold streamNameOf goSplit specFirstSegment
  cases hs : splitChar '.' subject.data with
  | nil => exact absurd hs (splitChar_ne_nil _ _)
  | cons t ts =>
    have hh := splitChar_head '.' subject.data
    rw [hs] at hh
    simp only [List.headD_cons] at hh
    simp [hh]

theorem jsConsumerInfo_fault {st : JetStreamState} {e : GoError}
    (hf : st.consumerInfoFault = some e) (s d : String) :
    jsConsumerInfo st s d = Except.error e := by
  unfold jsConsumerInfo
  rw [hf]

theorem jsConsumerInfo_found {st : JetStreamState} {s d : String}
    {cfg : ConsumerConfig} (hf : st.consumerInfoFault = none)
    (hl : lookupConsumer st s d = some cfg) :
    jsConsumerInfo st s d = Except.ok { Name := d, Config := cfg } := by
  unfold jsConsumerInfo
  rw [hf, hl]

theorem jsConsumerInfo_absent {st : JetStreamState} {s d : String}
    (hf : st.consumerInfoFault = none) (hl : lookupConsumer st s d = none) :
    jsConsumerInfo st s d = Except.error errConsumerNotFound := by
  unfold jsConsumerInfo
  rw [hf, hl]

theorem getOrAddConsumer_found {st : JetStreamState} {streamName : String}
    {cfg stored : ConsumerConfig}
    (hf : st.consumerInfoFault = none)
    (hl : lookupConsumer st streamName cfg.Durable = some stored)
    (hm : stored.MaxAckPending = cfg.MaxAckPending) :
    getOrAddConsumer st streamName cfg =
      (Except.ok { Name := cfg.Durable, Config := stored }, st) := by
  unfold getOrAddConsumer
  rw [jsConsumerInfo_found hf hl]
  simp [hm]

theorem getOrAddConsumer_mismatch {st : JetStreamState} {streamName : String}
    {cfg stored : ConsumerConfig}
    (hf : st.consumerInfoFault = none)
    (hl : lookupConsumer st streamName cfg.Durable = some stored)
    (hne : stored.MaxAckPending ≠ cfg.MaxAckPending) :
    getOrAddConsumer st streamName cfg =
      (Except.error (configurationDriftMessage cfg.Durable stored.MaxAckPending), st) := by
  unfold getOrAddConsumer
  rw [jsConsumerInfo_found hf hl]
  simp [hne]

theorem getOrAddConsumer_fault {st : JetStreamState} {e : GoError}
    {streamName : String} {cfg : ConsumerConfig}
    (hf : st.consumerInfoFault = some e)
    (hng : goContains e "consumer not found" = false) :
    getOrAddConsumer st streamName cfg = (Except.error e, st) := by
  unfold getOrAddConsumer
  rw [jsConsumerInfo_fault hf]
  simp [hng]

theorem getOrAddConsumer_creates {st : JetStreamState} {streamName : String}
    {cfg : ConsumerConfig}
    (hf : st.consumerInfoFault = none)
    (ha : st.addConsumerFault = none)
    (hl : lookupConsumer st streamName cfg.Durable = none) :
    getOrAddConsumer st streamName cfg =
      (Except.ok { Name := cfg.Durable, Config := cfg },
       { st with addConsumerCalls := st.addConsumerCalls + 1,
                 consumers := ((streamName, cfg.Durable), cfg) :: st.consumers }) := by
  unfold getOrAddConsumer
  rw [jsConsumerInfo_absent hf hl]
  have hg : goContains errConsumerNotFound "consumer not found" = true := by decide
  simp [hg, jsAddConsumer, ha]

theorem lookupConsumer_head {st : JetStreamState} {s d : String}
    {cfg : ConsumerConfig} {rest : List ((String × String) × ConsumerConfig)}
    (h : st.consumers = ((s, d), cfg) :: rest) :
    lookupConsumer st s d = some cfg := by
  unfold lookupConsumer
  rw [h]
  simp [List.find?]

theorem getOrAddConsumer_pullCalls (st : JetStreamState) (streamName : String)
    (cfg : ConsumerConfig) :
    ((getOrAddConsumer st streamName cfg).2).pullSubscribeCalls = st.pullSubscribeCalls := by
  unfold getOrAddConsumer jsAddConsumer
  cases hj : jsConsumerInfo st streamName cfg.Durable with
  | error e =>
    cases ha : st.addConsumerFault <;>
      by_cases hg : goContains e "consumer not found" <;>
        simp [hg, ha]
  | ok ci =>
    by_cases hm : ci.Config.MaxAckPending ≠ cfg.MaxAckPending <;> simp [hm]

/-! ## Claim theorems -/

/-- C1: for every existing consumer and requested mode, if the stored
`MaxAckPending` differs from the value the mode policy produces for the
requested mode, `getOrAddConsumer` returns the configuration-drift error and
returns the state unchanged — the stored consumer configuration is never
silently overwritten. -/
theorem getOrAddConsumer_drift_rejects (st : JetStreamState) (streamName : String)
    (cfg : ConsumerConfig) (mode : SubscriptionMode) (stored : ConsumerConfig)
    (hfault : st.consumerInfoFault = none)
    (hstored : lookupConsumer st streamName cfg.Durable = some stored)
    (hdrift : stored.MaxAckPending ≠ (patchConsumerConfig cfg mode).MaxAckPending) :
    getOrAddConsumer st streamName (patchConsumerConfig cfg mode) =
      (Except.error (configurationDriftMessage cfg.Durable stored.MaxAckPending), st) := by
  have hl : lookupConsumer st streamName (patchConsumerConfig cfg mode).Durable = some stored := by
    rw [patch_Durable]
    exact hstored
  have h := getOrAddConsumer_mismatch hfault hl hdrift
  rw [patch_Durable] at h
  exact h

/-- Witness for C1 at a concrete drift: consumer "C" stored with
`MaxAckPending = 0`, reconciled with `SingleInstanceMessagesInOrder`. -/
theorem getOrAddConsumer_drift_rejects_witness :
    getOrAddConsumer
        { consumers := [(("orders", "C"), subscriptionBaseConfig "C")] }
        "orders" (patchConsumerConfig (subscriptionBaseConfig "C") SingleInstanceMessagesInOrder) =
      (Except.error (configurationDriftMessage "C" 0),
       { consumers := [(("orders", "C"), subscriptionBaseConfig "C")] }) :=
  getOrAddConsumer_drift_rejects
    { consumers := [(("orders", "C"), subscriptionBaseConfig "C")] }
    "orders" (subscriptionBaseConfig "C") SingleInstanceMessagesInOrder
    (subscriptionBaseConfig "C") rfl (by decide) (by decide)

/-- C2: reconciling the same `(streamName, consumer, mode)` a second time is
idempotent: from a healthy state in which the consumer is absent, the first
`getOrAddConsumer` succeeds and creates it, and the second call with the
same arguments returns the stored consumer without error and leaves the
state — in particular `addConsumerCalls` — unchanged, so `AddConsumer` is
not called again. -/
theorem getOrAddConsumer_idempotent (st : JetStreamState) (streamName : String)
    (cfg : ConsumerConfig)
    (hfault : st.consumerInfoFault = none)
    (haddfault : st.addConsumerFault = none)
    (habsent : lookupConsumer st streamName cfg.Durable = none) :
    (getOrAddConsumer st streamName cfg).1 =
      Except.ok { Name := cfg.Durable, Config := cfg } ∧
    getOrAddConsumer (getOrAddConsumer st streamName cfg).2 streamName cfg =
      (Except.ok { Name := cfg.Durable, Config := cfg },
       (getOrAddConsumer st streamName cfg).2) ∧
    ((getOrAddConsumer (getOrAddConsumer st streamName cfg).2 streamName cfg).2).addConsumerCalls =
      ((getOrAddConsumer st streamName cfg).2).addConsumerCalls := by
  have h1 := getOrAddConsumer_creates hfault haddfault habsent
  have h2 : getOrAddConsumer (getOrAddConsumer st streamName cfg).2 streamName cfg =
      (Except.ok { Name := cfg.Durable, Config := cfg },
       (getOrAddConsumer st streamName cfg).2) := by
    rw [h1]
    exact getOrAddConsumer_found hfault (lookupConsumer_head rfl) rfl
  exact ⟨by rw [h1], h2, by rw [h2]⟩

/-- Witness for C2: creating consumer "C" on stream "orders" twice from the
empty JetStream state. -/
theorem getOrAddConsumer_idempotent_witness :
    ((getOrAddConsumer { } "orders" (subscriptionConsumerConfig "C" MultipleInstances)).1 =
      Except.ok { Name := "C", Config := subscriptionConsumerConfig "C" MultipleInstances }) ∧
    (getOrAddConsumer
        (getOrAddConsumer { } "orders" (subscriptionConsumerConfig "C" MultipleInstances)).2
        "orders" (subscriptionConsumerConfig "C" MultipleInstances) =
      (Except.ok { Name := "C", Config := subscriptionConsumerConfig "C" MultipleInstances },
       (getOrAddConsumer { } "orders" (subscriptionConsumerConfig "C" MultipleInstances)).2)) ∧
    ((getOrAddConsumer
        (getOrAddConsumer { } "orders" (subscriptionConsumerConfig "C" MultipleInstances)).2
        "orders" (subscriptionConsumerConfig "C" MultipleInstances)).2).addConsumerCalls =
      ((getOrAddConsumer { } "orders" (subscriptionConsumerConfig "C" MultipleInstances)).2).addConsumerCalls :=
  getOrAddConsumer_idempotent { } "orders"
    (subscriptionConsumerConfig "C" MultipleInstances) rfl rfl (by decide)

/-- C3: the subscription-mode policy `patchConsumerConfig` is a total
function (hence deterministic and side-effect-free in this embedding) of the
mode: `MultipleInstances ↦ 0`, `SingleInstanceMessagesInOrder ↦ 1`, and
every other integer value of `SubscriptionMode` falls to the default `0`
rather than erroring. -/
theorem patchConsumerConfig_total_policy (config : ConsumerConfig) (mode : SubscriptionMode) :
    (patchConsumerConfig config MultipleInstances).MaxAckPending = 0 ∧
    (patchConsumerConfig config SingleInstanceMessagesInOrder).MaxAckPending = 1 ∧
    (patchConsumerConfig config mode).MaxAckPending =
      (if mode = SingleInstanceMessagesInOrder then 1 else 0) := by
  refine ⟨?_, ?_, patch_MaxAckPending config mode⟩
  · rw [patch_MaxAckPending]
    simp [MultipleInstances, SingleInstanceMessagesInOrder]
  · rw [patch_MaxAckPending]
    simp

/-- C4 counterexample: for the stored consumer "C" created under
`MultipleInstances` (`MaxAckPending = 0`) and a request with
`SingleInstanceMessagesInOrder`, the drift error is exactly the string
below: it names the consumer and the stored mode, but the requested mode
appears nowhere in it — neither its policy value `1` nor its variant name.
The claim that the error names the requested mode is therefore false. -/
theorem drift_error_omits_requested_mode :
    (getOrAddConsumer
        { consumers := [(("orders", "C"), subscriptionConsumerConfig "C" MultipleInstances)] }
        "orders" (subscriptionConsumerConfig "C" SingleInstanceMessagesInOrder)).1 =
      Except.error "consumer C SubscriptionMode has changed. Please use the existing SubscriptionMode=0 or delete consumer" ∧
    goContains "consumer C SubscriptionMode has changed. Please use the existing SubscriptionMode=0 or delete consumer" "1" = false ∧
    goContains "consumer C SubscriptionMode has changed. Please use the existing SubscriptionMode=0 or delete consumer" "SingleInstanceMessagesInOrder" = false := by
  decide

/-- C4 (amended): in every drift case the error `getOrAddConsumer` returns
is the drift message, which names the consumer, the mode inferred from the
stored configuration (the stored `MaxAckPending` reinterpreted as a
`SubscriptionMode` integer), and the instruction to delete the consumer;
the requested mode is not part of the message. -/
theorem getOrAddConsumer_drift_message (st : JetStreamState) (streamName : String)
    (cfg : ConsumerConfig) (mode : SubscriptionMode) (stored : ConsumerConfig)
    (hfault : st.consumerInfoFault = none)
    (hstored : lookupConsumer st streamName cfg.Durable = some stored)
    (hdrift : stored.MaxAckPending ≠ (patchConsumerConfig cfg mode).MaxAckPending) :
    (getOrAddConsumer st streamName (patchConsumerConfig cfg mode)).1 =
      Except.error (configurationDriftMessage cfg.Durable stored.MaxAckPending) ∧
    goContains (configurationDriftMessage cfg.Durable stored.MaxAckPending)
      cfg.Durable = true ∧
    goContains (configurationDriftMessage cfg.Durable stored.MaxAckPending)
      (toString stored.MaxAckPending) = true ∧
    goContains (configurationDriftMessage cfg.Durable stored.MaxAckPending)
      " or delete consumer" = true := by
  have hl : lookupConsumer st streamName (patchConsumerConfig cfg mode).Durable = some stored := by
    rw [patch_Durable]
    exact hstored
  have h := getOrAddConsumer_mismatch hfault hl hdrift
  rw [patch_Durable] at h
  have hemp : ("" : String).data = [] := rfl
  refine ⟨by rw [h], ?_, ?_, ?_⟩
  · apply goContains_decomp _ "consumer " cfg.Durable
      (" SubscriptionMode has changed. Please use the existing SubscriptionMode=" ++
        toString stored.MaxAckPending ++ " or delete consumer")
    simp [configurationDriftMessage, String.data_append, List.append_assoc]
  · apply goContains_decomp _
      ("consumer " ++ cfg.Durable ++
        " SubscriptionMode has changed. Please use the existing SubscriptionMode=")
      (toString stored.MaxAckPending) " or delete consumer"
    simp [configurationDriftMessage, String.data_append, List.append_assoc]
  · apply goContains_decomp _
      ("consumer " ++ cfg.Durable ++
        " SubscriptionMode has changed. Please use the existing SubscriptionMode=" ++
        toString stored.MaxAckPending)
      " or delete consumer" ""
    simp [configurationDriftMessage, String.data_append, List.append_assoc, hemp]

/-- Witness for the amended C4 at the concrete drift of consumer "C". -/
theorem getOrAddConsumer_drift_message_witness :
    ((getOrAddConsumer
        { consumers := [(("orders", "C"), subscriptionBaseConfig "C")] }
        "orders" (patchConsumerConfig (subscriptionBaseConfig "C") SingleInstanceMessagesInOrder)).1 =
      Except.error (configurationDriftMessage "C" 0)) ∧
    goContains (configurationDriftMessage "C" 0) "C" = true ∧
    goContains (configurationDriftMessage "C" 0) (toString (0 : Int)) = true ∧
    goContains (configurationDriftMessage "C" 0) " or delete consumer" = true :=
  getOrAddConsumer_drift_message
    { consumers := [(("orders", "C"), subscriptionBaseConfig "C")] }
    "orders" (subscriptionBaseConfig "C") SingleInstanceMessagesInOrder
    (subscriptionBaseConfig "C") rfl (by decide) (by decide)

/-- C5: reconciliation lookups treat "not found" and any other error
differently.  Consumer side: a lookup fault whose message does not contain
"consumer not found" fails `getOrAddConsumer` with that very error and the
state unchanged (no creation attempted), while an absent consumer proceeds
to one `AddConsumer` call.  Stream side: any injected lookup fault fails
`GetOrAddStream` with the wrapped error and the state unchanged, while a
missing stream proceeds to one `AddStream` call. -/
theorem lookup_error_discrimination (st : JetStreamState) (streamName : String)
    (cfg : ConsumerConfig) (streamConfig : StreamConfig) (e : GoError) :
    (st.consumerInfoFault = some e → goContains e "consumer not found" = false →
      getOrAddConsumer st streamName cfg = (Except.error e, st)) ∧
    (st.consumerInfoFault = none → lookupConsumer st streamName cfg.Durable = none →
      ((getOrAddConsumer st streamName cfg).2).addConsumerCalls = st.addConsumerCalls + 1) ∧
    (st.streamInfoFault = some e →
      GetOrAddStream st streamConfig =
        (Except.error ("NATS streamInfo-info could not be fetched: " ++ e), st)) ∧
    (st.streamInfoFault = none →
      st.streams.find? (fun c => c.Name = streamConfig.Name) = none →
      ((GetOrAddStream st streamConfig).2).addStreamCalls = st.addStreamCalls + 1) := by
  refine ⟨fun hf hg => getOrAddConsumer_fault hf hg, fun hf hl => ?_, fun hf => ?_,
    fun hf hl => ?_⟩
  · have hg : goContains errConsumerNotFound "consumer not found" = true := by decide
    unfold getOrAddConsumer
    rw [jsConsumerInfo_absent hf hl]
    cases ha : st.addConsumerFault <;> simp [hg, jsAddConsumer, ha]
  · unfold GetOrAddStream jsStreamInfo
    rw [hf]
  · unfold GetOrAddStream jsStreamInfo
    rw [hf, hl]
    cases ha : st.addStreamFault <;> simp [jsAddStream, ha]

/-- Witness for C5: a "nats: timeout" consumer-lookup fault fails without
creating; an absent consumer is created; the same on the stream side. -/
theorem lookup_error_discrimination_witness :
    (getOrAddConsumer { consumerInfoFault := some "nats: timeout" } "orders"
        (subscriptionConsumerConfig "C" MultipleInstances) =
      (Except.error "nats: timeout", { consumerInfoFault := some "nats: timeout" })) ∧
    ((getOrAddConsumer { } "orders" (subscriptionConsumerConfig "C" MultipleInstances)).2.addConsumerCalls = 0 + 1) ∧
    (GetOrAddStream { streamInfoFault := some "nats: timeout" } { Name := "orders" } =
      (Except.error ("NATS streamInfo-info could not be fetched: " ++ "nats: timeout"),
       { streamInfoFault := some "nats: timeout" })) ∧
    ((GetOrAddStream { } { Name := "orders" }).2.addStreamCalls = 0 + 1) := by
  refine ⟨?_, ?_, ?_, ?_⟩
  · exact (lookup_error_discrimination { consumerInfoFault := some "nats: timeout" }
      "orders" (subscriptionConsumerConfig "C" MultipleInstances)
      { Name := "orders" } "nats: timeout").1 rfl (by decide)
  · exact (lookup_error_discrimination { } "orders"
      (subscriptionConsumerConfig "C" MultipleInstances)
      { Name := "orders" } "nats: timeout").2.1 rfl (by decide)
  · exact (lookup_error_discrimination { streamInfoFault := some "nats: timeout" }
      "orders" (subscriptionConsumerConfig "C" MultipleInstances)
      { Name := "orders" } "nats: timeout").2.2.1 rfl
  · exact (lookup_error_discrimination { } "orders"
      (subscriptionConsumerConfig "C" MultipleInstances)
      { Name := "orders" } "nats: timeout").2.2.2 rfl (by decide)

/-- C6: if the consumer-reconciliation step fails for any reason,
`CreateSubscription` returns that error, and the pull-subscribe step is
never reached: the final state's `pullSubscribeCalls` equals the initial
one, so no (partial) subscription handle exists. -/
theorem CreateSubscription_reconcile_failure (st : JetStreamState)
    (subject consumerName : String) (mode : SubscriptionMode) (e : GoError)
    (hfail : (getOrAddConsumer st (streamNameOf subject)
        (subscriptionConsumerConfig consumerName mode)).1 = Except.error e) :
    (CreateSubscription st subject consumerName mode).1 = Except.error e ∧
    ((CreateSubscription st subject consumerName mode).2).pullSubscribeCalls =
      st.pullSubscribeCalls := by
  have h2 := getOrAddConsumer_pullCalls st (streamNameOf subject)
    (subscriptionConsumerConfig consumerName mode)
  simp only [CreateSubscription]
  cases hres : getOrAddConsumer st (streamNameOf subject)
      (subscriptionConsumerConfig consumerName mode) with
  | mk r st1 =>
    rw [hres] at hfail h2
    dsimp only at hfail h2
    subst hfail
    simp [h2]

/-- Witness for C6: drift on consumer "C" makes `CreateSubscription` for
subject "orders.created" fail without touching `PullSubscribe`. -/
theorem CreateSubscription_reconcile_failure_witness :
    (CreateSubscription { consumers := [(("orders", "C"), subscriptionConsumerConfig "C" MultipleInstances)] }
        "orders.created" "C" SingleInstanceMessagesInOrder).1 =
      Except.error (configurationDriftMessage "C" 0) ∧
    ((CreateSubscription { consumers := [(("orders", "C"), subscriptionConsumerConfig "C" MultipleInstances)] }
        "orders.created" "C" SingleInstanceMessagesInOrder).2).pullSubscribeCalls = 0 :=
  CreateSubscription_reconcile_failure
    { consumers := [(("orders", "C"), subscriptionConsumerConfig "C" MultipleInstances)] }
    "orders.created" "C" SingleInstanceMessagesInOrder
    (configurationDriftMessage "C" 0) (by decide)

/-- C7: the stream name `CreateSubscription` derives — `streamNameOf`, the
embedding of `strings.Split(subject, ".")[0]` — is exactly the text before
the first `.` delimiter of the subject (`specFirstSegment`, modelled from
the spec's words), and in particular subject "orders.created" is bound to
stream "orders". -/
theorem streamName_is_first_segment :
    (∀ subject : String, streamNameOf subject = specFirstSegment subject) ∧
    streamNameOf "orders.created" = "orders" :=
  ⟨streamNameOf_eq_spec, by decide⟩

/-- C8: the consumer configuration `CreateSubscription` builds — for every
consumer name and mode — uses the explicit-ack policy and the fixed
30-second (`30 * 10^9` ns) ack-wait window; neither depends on the call's
arguments. -/
theorem subscription_config_fixed_ack (consumerName : String) (mode : SubscriptionMode) :
    (subscriptionConsumerConfig consumerName mode).AckPolicy = AckPolicyValue.ackExplicit ∧
    (subscriptionConsumerConfig consumerName mode).AckWait = 30 * nanosecondsPerSecond := by
  unfold subscriptionConsumerConfig
  rw [patchConsumerConfig_eq]
  exact ⟨rfl, rfl⟩

/-- C9: `patchConsumerConfig` changes only `MaxAckPending`: the result is
the input configuration with just that field replaced, and `Durable`,
`DeliverSubject`, `FilterSubject`, `AckPolicy` and `AckWait` are unchanged. -/
theorem patchConsumerConfig_frame (config : ConsumerConfig) (mode : SubscriptionMode) :
    patchConsumerConfig config mode =
      { config with MaxAckPending := (patchConsumerConfig config mode).MaxAckPending } ∧
    (patchConsumerConfig config mode).Durable = config.Durable ∧
    (patchConsumerConfig config mode).DeliverSubject = config.DeliverSubject ∧
    (patchConsumerConfig config mode).FilterSubject = config.FilterSubject ∧
    (patchConsumerConfig config mode).AckPolicy = config.AckPolicy ∧
    (patchConsumerConfig config mode).AckWait = config.AckWait := by
  rw [patchConsumerConfig_eq]
  exact ⟨rfl, rfl, rfl, rfl, rfl, rfl⟩

/-- C10: for a subject with no `.` delimiter, the whole subject string is
used as the stream name — splitting yields the entire string as first
token, not a failure or an empty name. -/
theorem streamName_no_delimiter (subject : String)
    (h : ∀ c ∈ subject.data, c ≠ '.') :
    streamNameOf subject = subject := by
  rw [streamNameOf_eq_spec]
  unfold specFirstSegment
  have ht : subject.data.takeWhile (fun c => c != '.') = subject.data := by
    rw [List.takeWhile_eq_self_iff]
    intro x hx
    simpa using h x hx
  rw [ht]

/-- Witness for C10 at the dot-free subject "orders". -/
theorem streamName_no_delimiter_witness :
    (∀ c ∈ "orders".data, c ≠ '.') ∧ streamNameOf "orders" = "orders" :=
  ⟨by decide, streamName_no_delimiter "orders" (by decide)⟩
